import Mathlib

/-!
Shallow embedding of the query-answering pipeline of the
neo4j-vertexai-codelab repository (files `app.py` and `prompts.py`).

Pure Python code (prompt builders, fence stripping, record-to-candidate
conversion, ontology text assembly) is translated into Lean functions.
Calls to external collaborators (Vertex AI embedding model, Gemini,
the Neo4j server) are modelled as oracle functions returning
`Except String _`: a Python exception raised by a collaborator is an
`Except.error` carrying the exception's message (`str(e)`), and the
orchestrator `process_query` additionally records a trace of which
external steps were reached.
-/

namespace MovieApp

/-! ## Python string primitives

The Python string operations used by the pipeline, implemented over
`String.data` by structural recursion so that every definition reduces
inside the kernel (`String.startsWith`, `String.trim`, `String.splitOn`
and `String.take` are substring-based and do not). -/

/-- Python `s.startswith(p)`. -/
def startswith (s p : String) : Bool :=
  p.data.isPrefixOf s.data

/-- Python `s.strip()`: drop leading and trailing whitespace. -/
def strip (s : String) : String :=
  ⟨(((s.data.dropWhile Char.isWhitespace).reverse.dropWhile
      Char.isWhitespace).reverse)⟩

/-- Helper for `splitlines`: split a character list at newline characters,
with no empty trailing line for a trailing newline (Python semantics). -/
def splitLinesCore : List Char → List (List Char)
  | [] => []
  | c :: cs =>
    if c = '\n' then [] :: splitLinesCore cs
    else
      match splitLinesCore cs with
      | [] => [[c]]
      | l :: ls => (c :: l) :: ls

/-- Python `s.splitlines()` (for `\n`-separated text). -/
def splitlines (s : String) : List String :=
  (splitLinesCore s.data).map String.mk

/-- Python `sep.join(items)`. -/
def pyJoin (sep : String) (items : List String) : String :=
  ⟨List.intercalate sep.data (items.map String.data)⟩

/-- Python `s[:n]`: the first `n` characters of `s`. -/
def pyTake (s : String) (n : Nat) : String :=
  ⟨s.data.take n⟩

/-! ## Prompt builders (`prompts.py`) -/

/-- Literal text of the cypher-generation f-string before the `{ontology}`
slot (`prompts.py` lines 13–21). -/
def cgpHeader : String :=
  "\nYou are an assistant working with a Neo4j movie database.\n" ++
  "You must translate a user’s natural language question into a precise Cypher query.\n" ++
  "\n" ++
  "Use the ontology, context, and user query provided below to guide your response.\n" ++
  "Each section is clearly delimited to help you parse and use the input properly.\n" ++
  "\n" ++
  "<<<ONTOLOGY>>>\n"

/-- Literal text between the `{ontology}` and `{query}` slots
(`prompts.py` lines 22–25). -/
def cgpAfterOntology : String :=
  "\n<<<END ONTOLOGY>>>\n\n<<<USER QUESTION>>>\n"

/-- Literal text between the `{query}` and `{context}` slots
(`prompts.py` lines 26–29). -/
def cgpAfterQuery : String :=
  "\n<<<END USER QUESTION>>>\n\n<<<VECTOR SEARCH CONTEXT>>>\n"

/-- Literal text after the `{context}` slot (`prompts.py` lines 30–46),
grouped as closing marker ++ guidelines ++ output instruction. -/
def cgpFooter : String :=
  "\n<<<END VECTOR SEARCH CONTEXT>>>\n" ++
  ("\n" ++
   "Your task is to generate a valid Cypher query that accurately answers the user\x27s question using the ontology and relevant context.\n" ++
   "\n" ++
   "IMPORTANT GUIDELINES FOR CYPHER QUERIES:\n" ++
   "1. Begin with Cypher clauses like MATCH, OPTIONAL MATCH, CREATE, MERGE, UNWIND, CALL, WITH, RETURN.\n" ++
   "2. DO NOT escape characters (\\n, \\t, etc.) or include markdown formatting like triple backticks (``` or ```cypher).\n" ++
   "3. Only use properties, labels, and relationships defined in the ontology.\n" ++
   "4. Apply appropriate WHERE clauses to filter results according to the user’s intent.\n" ++
   "5. Use the context to disambiguate entity types or relationships, especially where names or roles are similar.\n" ++
   "6. Ensure the RETURN clause clearly specifies what to return (e.g., title, overview, release date).\n" ++
   "7. Structure the query for readability and correctness — do not skip clauses.\n" ++
   "8. If unsure or information is missing, generate the best-effort query based on context, and make assumptions explicit in the Cypher query as comments if needed (optional).\n" ++
   "\n" ++
   "OUTPUT FORMAT:\n") ++
  "Only return the Cypher query — no explanation, formatting, markdown, or prose. Just the query itself.\n"

/-- `cypher_generation_prompt` (`prompts.py` lines 13–46): the Python
f-string is literal segments interleaved with the three interpolated
arguments `ontology`, `query`, `context`. -/
def cypher_generation_prompt (query context ontology : String) : String :=
  cgpHeader ++ ontology ++ cgpAfterOntology ++ query ++ cgpAfterQuery ++
    context ++ cgpFooter

/-- The `cypher_results` argument of `summarize_results_prompt`: the dict
`{"query": ..., "results": ...}` built in `app.py` line 217.  A `none`
field models an absent key, so `.get` with a default is `Option.getD`. -/
structure CypherResults where
  query : Option String
  results : List String
deriving DecidableEq, Repr

/-- Literal text of the summary f-string before the `{query}` slot
(`prompts.py` lines 51–54). -/
def smpHeader : String :=
  "\nYou are a friendly movie assistant helping users find films that match their preferences.\n" ++
  "\n" ++
  "<<<USER QUESTION>>>\n"

/-- Literal text between the `{query}` slot and the executed-query slot
(`prompts.py` lines 56–58). -/
def smpAfterQuery : String :=
  "\n<<<END USER QUESTION>>>\n\n<<<CYPHER QUERY EXECUTED>>>\n"

/-- Literal text between the executed-query slot and `{result_count}`
(`prompts.py` lines 60–62). -/
def smpAfterCypher : String :=
  "\n<<<END CYPHER QUERY>>>\n\n<<<RESULT COUNT>>>\n"

/-- Literal text between `{result_count}` and the formatted-results slot
(`prompts.py` lines 64–66). -/
def smpAfterCount : String :=
  "\n<<<END RESULT COUNT>>>\n\n<<<FORMATTED RESULTS (TRUNCATED TO 4000 CHAR IF TOO LONG)>>>\n"

/-- Literal text after the formatted-results slot (`prompts.py`
lines 68–90). -/
def smpFooter : String :=
  "\n<<<END FORMATTED RESULTS>>>\n" ++
  "\n" ++
  "Your task:\n" ++
  "1. Summarize the top 3–5 movie results as if you’re enthusiastically recommending them to a friend at a movie club.\n" ++
  "2. For each movie, include:\n" ++
  "   - Title (required)\n" ++
  "   - A complete but concise overview (required)\n" ++
  "   - Optional helpful metadata like release year, genre, or standout elements (e.g., actor, theme, director)\n" ++
  "3. Relate each recommendation to the user’s question (e.g., genre, actor mentioned, theme requested).\n" ++
  "4. Make it personal, natural, and engaging — like you’ve seen these movies and are excited to share them.\n" ++
  "\n" ++
  "IF RESULTS = 0:\n" ++
  "- Offer thoughtful reasons why (e.g., query too broad/narrow, data gap)\n" ++
  "- Provide 1–2 helpful tips to refine the query for better results next time\n" ++
  "- Keep the tone helpful and constructive\n" ++
  "\n" ++
  "IMPORTANT:\n" ++
  "- DO NOT list raw data.\n" ++
  "- DO NOT repeat the Cypher query.\n" ++
  "- DO NOT just copy & paste the input — transform the results into meaningful narrative.\n" ++
  "\n" ++
  "Your response should be friendly, clear, and insightful — like a real conversation between movie lovers.\n"

/-- `summarize_results_prompt` (`prompts.py` lines 51–90).  The slot
`{cypher_results.get("query", "No query available")}` is
`Option.getD`; `{formatted_cypher_results[:4000] if result_count > 0
else "No results found."}` is the conditional with `String.take`. -/
def summarize_results_prompt (query : String) (cypher_results : CypherResults)
    (result_count : Nat) (formatted_cypher_results : String) : String :=
  smpHeader ++ query ++ smpAfterQuery ++
    cypher_results.query.getD "No query available" ++ smpAfterCypher ++
    toString result_count ++ smpAfterCount ++
    (if 0 < result_count then pyTake formatted_cypher_results 4000
     else "No results found.") ++ smpFooter

/-- Everything of the summary prompt before the formatted-results slot. -/
def summaryPromptPrefix (q : String) (cr : CypherResults) (c : Nat) : String :=
  smpHeader ++ q ++ smpAfterQuery ++ cr.query.getD "No query available" ++
    smpAfterCypher ++ toString c ++ smpAfterCount

/-! ## Markdown fence stripping (`app.py` lines 203–207) -/

/-- The sanitization step of `process_query` (`app.py` lines 203–207):
if the generated text starts with a fence marker, drop every line whose
whitespace-stripped form starts with the fence marker, rejoin with
newlines and strip.  `str.splitlines` is modelled as `splitOn "\n"`
(the generated text was already stripped, so it has no trailing
newline), `str.strip` as `String.trim`. -/
def stripFences (generated_query : String) : String :=
  if startswith generated_query "```" then
    let lines := splitlines generated_query
    let lines := lines.filter (fun line => !(startswith (strip line) "```"))
    strip (pyJoin "\n" lines)
  else generated_query

/-- The sanitization behavior as the claim words it: strip the first
fenced line, the last fenced line, and any other line that is a *pure*
fence marker (its stripped form is exactly the marker), then rejoin.
Stated only to be compared against `stripFences`, which is the code. -/
def stripFencesClaim (generated_query : String) : String :=
  if startswith generated_query "```" then
    let lines := (splitlines generated_query).drop 1
    let lines :=
      if (lines.getLast?.map (fun l => startswith (strip l) "```")).getD false
      then lines.dropLast else lines
    let lines := lines.filter (fun line => strip line ≠ "```")
    strip (pyJoin "\n" lines)
  else generated_query

/-! ## Vector retrieval (`app.py` lines 66–107)

`get_movie_recommendations_by_vector` runs a fixed Cypher query:
`CALL db.index.vector.queryNodes('overview_embeddings', $top_k,
$embedding) YIELD node, score ... RETURN title, plot, released,
tagline, score ORDER BY score DESC`, then converts each driver record
into a dict.  The Neo4j vector index is modelled as the list of
`(node, score)` pairs it holds for the given query embedding;
`db.index.vector.queryNodes` returns at most `$top_k` of them ordered
by descending similarity score (its documented contract), and the
trailing `ORDER BY score DESC` orders the returned rows. -/

/-- The movie-node properties the Cypher query projects. -/
structure MovieRow where
  title : String
  plot : String
  released : String
  tagline : String
deriving DecidableEq, Repr

/-- A node of the vector index paired with its similarity score for the
current query embedding. -/
abbrev ScoredRow := MovieRow × ℚ

/-- A Neo4j driver record with keys `title`, `plot`, `released`,
`tagline`, `score`; a `none` field models an absent key, so that
Python `record[k]` raises `KeyError` and `record.get(k, d)` returns
`d` exactly when the field is `none`. -/
structure MovieRecord where
  title : Option String
  plot : Option String
  released : Option String
  tagline : Option String
  score : Option ℚ
deriving DecidableEq, Repr

/-- One entry of the `recommendations` list (`app.py` lines 97–104). -/
structure Candidate where
  title : String
  plot : String
  released : String
  tagline : String
  similarity : ℚ
deriving DecidableEq, Repr

/-- The dict built for one record (`app.py` lines 98–104):
`record["title"]` and `record["plot"]` raise `KeyError` on a missing
key, while `record.get` fills the defaults `"Unknown"`, `""` and `0`. -/
def buildRecommendation (record : MovieRecord) : Except String Candidate :=
  match record.title with
  | none => .error "KeyError: \x27title\x27"
  | some title =>
    match record.plot with
    | none => .error "KeyError: \x27plot\x27"
    | some plot =>
      .ok { title := title, plot := plot,
            released := record.released.getD "Unknown",
            tagline := record.tagline.getD "",
            similarity := record.score.getD 0 }

/-- The list comprehension of `app.py` lines 97–106: elements are built
in order and the first raised `KeyError` aborts the whole list. -/
def buildRecommendations : List MovieRecord → Except String (List Candidate)
  | [] => .ok []
  | r :: rs =>
    match buildRecommendation r with
    | .error e => .error e
    | .ok c =>
      match buildRecommendations rs with
      | .error e => .error e
      | .ok cs => .ok (c :: cs)

/-- `db.index.vector.queryNodes('overview_embeddings', $top_k,
$embedding)`: at most `top_k` index entries, ordered by descending
score (the procedure's documented contract). -/
def queryNodes (index : List ScoredRow) (top_k : Nat) : List ScoredRow :=
  (List.insertionSort (fun a b => b.2 ≤ a.2) index).take top_k

/-- The driver record produced by the `RETURN` clause of the Cypher
query for one yielded row: all five keys are present. -/
def rowRecord (x : ScoredRow) : MovieRecord :=
  { title := some x.1.title, plot := some x.1.plot,
    released := some x.1.released, tagline := some x.1.tagline,
    score := some x.2 }

/-- `Neo4jDatabase.get_movie_recommendations_by_vector` (`app.py` lines
66–107).  `index` is the modelled state of the `overview_embeddings`
vector index for `user_embedding`; the final `List.insertionSort` is
the query's `ORDER BY score DESC`. -/
def get_movie_recommendations_by_vector (index : List ScoredRow)
    (user_embedding : List ℚ) (top_k : Nat := 5) :
    Except String (List Candidate) :=
  let rows := List.insertionSort (fun a b => b.2 ≤ a.2) (queryNodes index top_k)
  buildRecommendations (rows.map rowRecord)

/-- The candidate a fully-populated row maps to. -/
def candOfRow (x : ScoredRow) : Candidate :=
  { title := x.1.title, plot := x.1.plot, released := x.1.released,
    tagline := x.1.tagline, similarity := x.2 }

instance : IsTotal ScoredRow (fun a b => b.2 ≤ a.2) :=
  ⟨fun a b => le_total b.2 a.2⟩

instance : IsTrans ScoredRow (fun a b => b.2 ≤ a.2) :=
  ⟨fun _ _ _ hab hbc => le_trans hbc hab⟩

/-! ## Ontology introspection (`app.py` lines 143–171)

`get_ontology_from_neo4j` reads the node-type/property records of
`db.schema.nodeTypeProperties()` and the relationship types of
`db.relationshipTypes()` and assembles the ontology text.  `nodes` is a
Python dict (insertion ordered: node types appear in first-occurrence
order), but the per-node property collections and `relationships` are
Python *sets*, whose iteration order is unspecified (CPython iterates
them in hash order, randomized across processes).  A set is therefore
modelled as its insertion-ordered deduplicated content together with an
explicit iteration-order function `setOrder` applied when the set is
iterated; any permutation-producing `setOrder` is an admissible
execution. -/

/-- One record of `db.schema.nodeTypeProperties()`. -/
structure NodePropRecord where
  nodeLabels : List String
  propertyName : String
deriving DecidableEq, Repr

/-- `nodes.setdefault(node_type, set()).add(property_name)` on an
insertion-ordered dict whose values are sets (modelled as
insertion-ordered deduplicated lists). -/
def insertProp (nodes : List (String × List String)) (ty p : String) :
    List (String × List String) :=
  match nodes with
  | [] => [(ty, [p])]
  | (t, ps) :: rest =>
    if t = ty then (t, if p ∈ ps then ps else ps ++ [p]) :: rest
    else (t, ps) :: insertProp rest ty p

/-- The `nodes` dict after the loop over the introspection records
(`app.py` lines 150–154); node type is `":".join(node_labels)`. -/
def nodesDict (records : List NodePropRecord) : List (String × List String) :=
  records.foldl
    (fun ns r => insertProp ns (pyJoin ":" r.nodeLabels) r.propertyName) []

/-- `relationships.add(...)` over the whole result: insertion-ordered
deduplicated content of the `relationships` set (`app.py` lines
157–159). -/
def dedupList (l : List String) : List String :=
  l.foldl (fun acc x => if x ∈ acc then acc else acc ++ [x]) []

/-- `"".join`-style accumulation: concatenation of a list of strings. -/
def pyConcat (ls : List String) : String :=
  ls.foldl (fun a x => a ++ x) ""

/-- The node-type line of the ontology text: the f-string
`f"({node}) has properties: {prop_list}\n"` without its trailing
newline (`app.py` lines 165–166); `prop_list` is `", ".join(props)`,
iterating the property set. -/
def nodeLine (setOrder : List String → List String)
    (e : String × List String) : String :=
  "(" ++ e.1 ++ ") has properties: " ++ pyJoin ", " (setOrder e.2)

/-- The relationship line of the ontology text: the f-string
`f"(:Node)-[:{rel}]->(:Node)\n"` without its trailing newline
(`app.py` line 169). -/
def relLine (r : String) : String :=
  "(:Node)-[:" ++ r ++ "]->(:Node)"

/-- `get_ontology_from_neo4j` (`app.py` lines 143–171): string
accumulation of one line per dict entry, then one line per iterated
relationship-set element, then `.strip()`.  `setOrder` gives the
iteration order of each Python set. -/
def get_ontology_from_neo4j (records : List NodePropRecord)
    (relTypes : List String) (setOrder : List String → List String) : String :=
  let nodes := nodesDict records
  let relationships := dedupList relTypes
  let s := nodes.foldl
    (fun acc e => acc ++ (nodeLine setOrder e ++ "\n")) ""
  let s := (setOrder relationships).foldl
    (fun acc rel => acc ++ (relLine rel ++ "\n")) s
  strip s

/-- A text block of the given lines, each terminated by a newline, with
the surrounding whitespace stripped. -/
def joinLines (ls : List String) : String :=
  strip (pyConcat (ls.map (fun l => l ++ "\n")))

/-- The ontology text as claim C6 words it: one line per node type,
then one line per relationship type *in the order the backing store
returned them* (first-occurrence order), rather than in set-iteration
order.  Stated only to be compared against `get_ontology_from_neo4j`,
which is the code. -/
def ontologyBlockClaim (records : List NodePropRecord)
    (relTypes : List String) (setOrder : List String → List String) : String :=
  joinLines ((nodesDict records).map (nodeLine setOrder) ++
    (dedupList relTypes).map relLine)

/-! ## The orchestrator (`app.py` lines 183–243) -/

/-- The external steps of `process_query`, in program order. -/
inductive Event where
  | embed
  | vectorSearch
  | introspect
  | composeCypherPrompt
  | llmGenerate
  | runCypher
  | composeSummaryPrompt
  | llmSummarize
deriving DecidableEq, Repr

/-- The external collaborators of `process_query`, as oracles.  An
`Except.error e` models a raised Python exception with `str(e) = e`. -/
structure Oracles where
  /-- `VectorService.generate_embedding` (Vertex AI call). -/
  generate_embedding : String → Except String (List ℚ)
  /-- `Neo4jDatabase.get_movie_recommendations_by_vector` (driver call
  plus record conversion). -/
  vector_search : List ℚ → Nat → Except String (List Candidate)
  /-- `get_ontology_from_neo4j self.neo4j.driver` (two introspection
  queries plus text assembly). -/
  get_ontology : Except String String
  /-- `GeminiService.generate_response` (LLM call). -/
  generate_response : String → Except String String
  /-- `session.run(generated_query)` plus `record.data()` per record,
  each record serialized to its Python `repr` string. -/
  run_cypher : String → Except String (List String)

/-- The `context` string built in `app.py` lines 193–195. -/
def vectorContext (vector_results : List Candidate) : String :=
  (vector_results.mapIdx
    (fun i r => "[Result " ++ toString (i + 1) ++ "] Title: " ++ r.title ++
      "\nPlot: " ++ r.plot ++ "\n\n")).foldl
    (fun a x => a ++ x) "Information from vector search:\n"

/-- Python `str` of a list of records whose `repr` strings are given. -/
def pyListStr (items : List String) : String :=
  "[" ++ pyJoin ", " items ++ "]"

/-- The failure answer of the `except` clause (`app.py` line 223). -/
def errAnswer (e : String) : String :=
  "Error processing query: " ++ e

/-- `MovieRecommendationApp.process_query` (`app.py` lines 183–223),
returning the answer together with the trace of reached steps.  Every
oracle failure is caught by the surrounding `try`/`except` and becomes
`errAnswer`; the function itself is total — nothing escapes to the
caller. -/
def process_query (o : Oracles) (user_input : String) : String × List Event :=
  match o.generate_embedding user_input with
  | .error e => (errAnswer e, [.embed])
  | .ok query_embedding =>
    match o.vector_search query_embedding 5 with
    | .error e => (errAnswer e, [.embed, .vectorSearch])
    | .ok vector_results =>
      if vector_results.isEmpty then
        ("Sorry, no relevant results found using vector search.",
         [.embed, .vectorSearch])
      else
        let context := vectorContext vector_results
        match o.get_ontology with
        | .error e => (errAnswer e, [.embed, .vectorSearch, .introspect])
        | .ok ontology =>
          let cypher_prompt := cypher_generation_prompt user_input context ontology
          match o.generate_response cypher_prompt with
          | .error e =>
            (errAnswer e,
             [.embed, .vectorSearch, .introspect, .composeCypherPrompt,
              .llmGenerate])
          | .ok raw =>
            let generated_query := stripFences (strip raw)
            match o.run_cypher generated_query with
            | .error e =>
              (errAnswer e,
               [.embed, .vectorSearch, .introspect, .composeCypherPrompt,
                .llmGenerate, .runCypher])
            | .ok records =>
              let summary_prompt := summarize_results_prompt user_input
                ⟨some generated_query, records⟩ records.length
                (pyListStr records)
              match o.generate_response summary_prompt with
              | .error e =>
                (errAnswer e,
                 [.embed, .vectorSearch, .introspect, .composeCypherPrompt,
                  .llmGenerate, .runCypher, .composeSummaryPrompt,
                  .llmSummarize])
              | .ok summary =>
                (summary,
                 [.embed, .vectorSearch, .introspect, .composeCypherPrompt,
                  .llmGenerate, .runCypher, .composeSummaryPrompt,
                  .llmSummarize])

/-- `handle_user_input` (`app.py` lines 229–243): constructs the app,
delegates to `process_query` and returns its answer (the `finally`
block only closes connections). -/
def handle_user_input (o : Oracles) (user_input : String) : String :=
  (process_query o user_input).1

/-! ## Concrete inputs for witnesses and counterexamples -/

/-- Concrete two-entry vector index for the C4 witness. -/
def c4index : List ScoredRow :=
  [(⟨"A", "pa", "ra", "ta"⟩, (1 : ℚ)), (⟨"B", "pb", "rb", "tb"⟩, (2 : ℚ))]

/-- The candidate list the C4 witness retrieval returns. -/
def c4out : List Candidate :=
  [⟨"B", "pb", "rb", "tb", (2 : ℚ)⟩]

/-- Oracles for the C2 witness: retrieval finds nothing. -/
def c2Oracles : Oracles where
  generate_embedding := fun _ => .ok []
  vector_search := fun _ _ => .ok []
  get_ontology := .ok ""
  generate_response := fun p => .ok p
  run_cypher := fun _ => .ok []

/-- Oracles for the C1 counterexample: all collaborators succeed, but
the language model returns the empty string, which `process_query`
passes through verbatim as the final answer. -/
def c1Oracles : Oracles where
  generate_embedding := fun _ => .ok []
  vector_search := fun _ _ =>
    .ok [⟨"Inception", "A thief steals secrets from dreams.", "2010", "", (1 : ℚ)⟩]
  get_ontology := .ok "(Movie) has properties: title"
  generate_response := fun _ => .ok ""
  run_cypher := fun _ => .ok []

/-- Oracles for the C1 witness: every step succeeds and the language
model always returns non-empty text. -/
def c1wOracles : Oracles where
  generate_embedding := fun _ => .ok []
  vector_search := fun _ _ =>
    .ok [⟨"Inception", "A thief steals secrets from dreams.", "2010", "", (1 : ℚ)⟩]
  get_ontology := .ok "(Movie) has properties: title"
  generate_response := fun _ => .ok "Here are some movies."
  run_cypher := fun _ => .ok []

/-! ## Helper lemmas -/

example : stripFences "```cypher\nMATCH (m) RETURN m\n```" = "MATCH (m) RETURN m" := by decide
example : stripFences "MATCH (m) RETURN m" = "MATCH (m) RETURN m" := by decide
example : stripFences "```\nA\n```extra\nB\n```" = "A\nB" := by decide
example : stripFencesClaim "```\nA\n```extra\nB\n```" = "A\n```extra\nB" := by decide

/-- Rows built by `rowRecord` always convert successfully. -/
theorem buildRecommendations_map_rowRecord (rows : List ScoredRow) :
    buildRecommendations (rows.map rowRecord) = .ok (rows.map candOfRow) := by
  induction rows with
  | nil => rfl
  | cons x xs ih =>
    simp [buildRecommendations, buildRecommendation, rowRecord, candOfRow, ih]

theorem foldl_append_eq (l : List String) (acc : String) :
    l.foldl (fun a x => a ++ x) acc = acc ++ pyConcat l := by
  induction l generalizing acc with
  | nil => simp [pyConcat, String.append_empty]
  | cons y ys ih =>
    show ys.foldl _ (acc ++ y) = acc ++ pyConcat (y :: ys)
    rw [ih]
    have h2 : pyConcat (y :: ys) = y ++ pyConcat ys := by
      show ys.foldl _ ("" ++ y) = _
      rw [ih, String.empty_append]
    rw [h2, String.append_assoc]

theorem pyConcat_append (xs ys : List String) :
    pyConcat (xs ++ ys) = pyConcat xs ++ pyConcat ys := by
  show (xs ++ ys).foldl _ "" = _
  rw [List.foldl_append, foldl_append_eq]
  rfl

theorem foldl_append_map_eq {α : Type} (l : List α) (f : α → String)
    (acc : String) :
    l.foldl (fun a x => a ++ f x) acc = acc ++ pyConcat (l.map f) := by
  rw [← List.foldl_map f (fun a x => a ++ x) l acc, foldl_append_eq]

/-- The key list of the `nodes` dict after one `setdefault`-insertion. -/
theorem insertProp_keys (ns : List (String × List String)) (ty p : String) :
    (insertProp ns ty p).map Prod.fst =
      if ty ∈ ns.map Prod.fst then ns.map Prod.fst
      else ns.map Prod.fst ++ [ty] := by
  induction ns with
  | nil => simp [insertProp]
  | cons hd tl ih =>
    obtain ⟨t, ps⟩ := hd
    by_cases h : t = ty
    · subst h
      simp [insertProp]
    · simp only [insertProp, if_neg h, List.map_cons, List.mem_cons, ih]
      by_cases hm : ty ∈ tl.map Prod.fst
      · simp [hm, Ne.symm h]
      · simp [hm, Ne.symm h]

/-- The node types of the `nodes` dict are the distinct node types of
the introspection records, in first-occurrence order. -/
theorem nodesDict_keys (records : List NodePropRecord) :
    (nodesDict records).map Prod.fst =
      dedupList (records.map (fun r => pyJoin ":" r.nodeLabels)) := by
  have aux : ∀ (recs : List NodePropRecord) (ns : List (String × List String)),
      ((recs.foldl
        (fun ns r => insertProp ns (pyJoin ":" r.nodeLabels) r.propertyName)
        ns).map Prod.fst) =
      recs.foldl
        (fun acc r =>
          if pyJoin ":" r.nodeLabels ∈ acc then acc
          else acc ++ [pyJoin ":" r.nodeLabels]) (ns.map Prod.fst) := by
    intro recs
    induction recs with
    | nil => intro ns; rfl
    | cons r rs ih =>
      intro ns
      simp only [List.foldl_cons]
      rw [ih, insertProp_keys]
  rw [nodesDict, aux records [], dedupList,
    List.foldl_map (fun r : NodePropRecord => pyJoin ":" r.nodeLabels)]
  rfl

/-- `get_ontology_from_neo4j` is the line block: one line per node type
(dict order), then one line per relationship type (set-iteration
order). -/
theorem get_ontology_eq (records : List NodePropRecord)
    (relTypes : List String) (so : List String → List String) :
    get_ontology_from_neo4j records relTypes so =
      joinLines ((nodesDict records).map (nodeLine so) ++
        (so (dedupList relTypes)).map relLine) := by
  have h1 := foldl_append_map_eq (nodesDict records)
    (fun e => nodeLine so e ++ "\n") ""
  have h2 := foldl_append_map_eq (so (dedupList relTypes))
    (fun r => relLine r ++ "\n")
    ("" ++ pyConcat ((nodesDict records).map fun e => nodeLine so e ++ "\n"))
  simp only [get_ontology_from_neo4j, joinLines]
  rw [h1, h2]
  simp only [String.empty_append, List.map_append, List.map_map,
    pyConcat_append, Function.comp]
  rfl

/-- The summary prompt decomposed around the formatted-results slot. -/
theorem summarize_decomp (q : String) (cr : CypherResults) (c : Nat)
    (s : String) :
    summarize_results_prompt q cr c s =
      (smpHeader ++ q ++ smpAfterQuery ++ cr.query.getD "No query available" ++
        smpAfterCypher ++ toString c ++ smpAfterCount) ++
      ((if 0 < c then pyTake s 4000 else "No results found.") ++ smpFooter) := by
  simp only [summarize_results_prompt, String.append_assoc]

theorem errAnswer_ne_empty (e : String) : errAnswer e ≠ "" := by
  intro h
  have h2 : (errAnswer e).length = 0 := by rw [h]; rfl
  rw [errAnswer, String.length_append] at h2
  have h3 : String.length "Error processing query: " = 24 := by decide
  rw [h3] at h2
  omega

/-! ## Claim theorems -/

/-- C3 (counterexample): the claim describes the sanitization as
stripping the first and last fenced lines *and any other lines that are
pure fence markers*.  On `"```\nA\n```extra\nB\n```"`, whose middle
fence line carries the extra text `extra` and is not a pure marker, the
claimed behavior (`stripFencesClaim`) keeps that line, but the code
(`stripFences`, `app.py` line 206) drops every line that merely starts
with the marker, so the two differ. -/
theorem stripFences_info_string_cx :
    stripFences "```\nA\n```extra\nB\n```" = "A\nB" ∧
    stripFencesClaim "```\nA\n```extra\nB\n```" = "A\n```extra\nB" ∧
    stripFences "```\nA\n```extra\nB\n```" ≠
      stripFencesClaim "```\nA\n```extra\nB\n```" :=
  ⟨by decide, by decide, by decide⟩

/-- C3 (amended): when the LLM output begins with a fence marker, every
line whose whitespace-stripped form begins with the fence marker
(fenced lines with an info string included, not only pure markers) is
dropped and the trimmed remainder becomes the generated query; the
claim's fenced example yields exactly `MATCH (m) RETURN m`, and input
not beginning with a fence passes through unchanged. -/
theorem stripFences_behavior (s : String) :
    stripFences "```cypher\nMATCH (m) RETURN m\n```" = "MATCH (m) RETURN m" ∧
    (startswith s "```" = false → stripFences s = s) ∧
    stripFences "```\nA\n```extra\nB\n```" = "A\nB" :=
  ⟨by decide, fun h => by simp [stripFences, h], by decide⟩

/-- C3 (witness). -/
theorem stripFences_behavior_witness :
    stripFences "MATCH (n) RETURN n" = "MATCH (n) RETURN n" :=
  (stripFences_behavior "MATCH (n) RETURN n").2.1 (by decide)

/-- C5: for every call of the summary prompt builder with a positive
result count, the prompt embeds exactly the first 4000 characters of
the serialized result string between the fixed prefix and suffix; a
string of length at least 4000 thus appears as exactly 4000
characters. -/
theorem summarize_results_prompt_truncates (q : String) (cr : CypherResults)
    (c : Nat) (s : String) (hc : 0 < c) :
    summarize_results_prompt q cr c s =
      summaryPromptPrefix q cr c ++ pyTake s 4000 ++ smpFooter ∧
    (pyTake s 4000).data = s.data.take 4000 ∧
    (4000 ≤ s.length → (pyTake s 4000).length = 4000) := by
  refine ⟨?_, rfl, ?_⟩
  · rw [summarize_decomp, if_pos hc]
    simp only [summaryPromptPrefix, String.append_assoc]
  · intro h
    show (s.data.take 4000).length = 4000
    rw [List.length_take]
    have h2 : 4000 ≤ s.data.length := h
    omega

/-- C5 (witness). -/
theorem summarize_results_prompt_truncates_witness :
    (summarize_results_prompt "q" ⟨some "Q", []⟩ 1 "res" =
      summaryPromptPrefix "q" ⟨some "Q", []⟩ 1 ++ pyTake "res" 4000 ++
        smpFooter) ∧
    (pyTake "res" 4000).data = ("res" : String).data.take 4000 ∧
    (4000 ≤ ("res" : String).length → (pyTake "res" 4000).length = 4000) :=
  summarize_results_prompt_truncates "q" ⟨some "Q", []⟩ 1 "res" (by decide)

/-- C10: whenever the result count is 0, the formatted-results section
of the summary prompt holds the literal placeholder `No results found.`
and the serialized-results argument is ignored entirely. -/
theorem summarize_results_prompt_zero_results (q : String)
    (cr : CypherResults) (s : String) :
    summarize_results_prompt q cr 0 s =
      summaryPromptPrefix q cr 0 ++ "No results found." ++ smpFooter ∧
    summarize_results_prompt q cr 0 s = summarize_results_prompt q cr 0 "" := by
  have h0 : ¬ (0 < 0) := by decide
  constructor
  · rw [summarize_decomp, if_neg h0]
    simp only [summaryPromptPrefix, String.append_assoc]
  · rw [summarize_decomp, summarize_decomp, if_neg h0, if_neg h0]

/-- C7: the two prompt builders are pure functions of their arguments —
identical arguments yield byte-identical prompt text (the embedding has
no effects: both are plain string-valued functions). -/
theorem prompt_builders_deterministic (q c o q2 c2 o2 : String)
    (cr cr2 : CypherResults) (n n2 : Nat) (s s2 : String)
    (hq : q = q2) (hc : c = c2) (ho : o = o2) (hcr : cr = cr2)
    (hn : n = n2) (hs : s = s2) :
    cypher_generation_prompt q c o = cypher_generation_prompt q2 c2 o2 ∧
    summarize_results_prompt q cr n s = summarize_results_prompt q2 cr2 n2 s2 := by
  subst hq hc ho hcr hn hs
  exact ⟨rfl, rfl⟩

/-- C7 (witness). -/
theorem prompt_builders_deterministic_witness :
    cypher_generation_prompt "a" "b" "c" = cypher_generation_prompt "a" "b" "c" ∧
    summarize_results_prompt "a" ⟨none, []⟩ 0 "x" =
      summarize_results_prompt "a" ⟨none, []⟩ 0 "x" :=
  prompt_builders_deterministic "a" "b" "c" "a" "b" "c" ⟨none, []⟩ ⟨none, []⟩
    0 0 "x" "x" rfl rfl rfl rfl rfl rfl

/-- C8: the query-generation prompt embeds its three inputs verbatim,
each in its own delimited section — the ontology right after the
`<<<ONTOLOGY>>>` marker line, the user query between the
`<<<USER QUESTION>>>` markers, the vector-search context between the
`<<<VECTOR SEARCH CONTEXT>>>` markers — and the fixed trailing text
instructs the LLM to return only the query. -/
theorem cypher_generation_prompt_sections (q c o : String) :
    cypher_generation_prompt q c o =
      cgpHeader ++ o ++ cgpAfterOntology ++ q ++ cgpAfterQuery ++ c ++
        cgpFooter ∧
    (∃ a, cgpHeader = a ++ "<<<ONTOLOGY>>>\n") ∧
    cgpAfterOntology = "\n<<<END ONTOLOGY>>>\n\n<<<USER QUESTION>>>\n" ∧
    cgpAfterQuery = "\n<<<END USER QUESTION>>>\n\n<<<VECTOR SEARCH CONTEXT>>>\n" ∧
    (∃ b, cgpFooter = "\n<<<END VECTOR SEARCH CONTEXT>>>\n" ++ b) ∧
    (∃ a, cgpFooter =
      a ++ "Only return the Cypher query — no explanation, formatting, markdown, or prose. Just the query itself.\n") :=
  ⟨rfl, ⟨_, rfl⟩, rfl, rfl, ⟨_, String.append_assoc _ _ _⟩, ⟨_, rfl⟩⟩

/-- C9: a record whose `released`, `tagline` or `score` key is absent
yields a candidate with the default `"Unknown"`, `""` or `0`
respectively, while `title` and `plot` are taken from the record with
no default (an absent key there raises `KeyError`). -/
theorem buildRecommendation_defaults (r : MovieRecord) (c : Candidate)
    (h : buildRecommendation r = .ok c) :
    r.title = some c.title ∧ r.plot = some c.plot ∧
    c.released = r.released.getD "Unknown" ∧
    c.tagline = r.tagline.getD "" ∧
    c.similarity = r.score.getD 0 ∧
    (r.released = none → c.released = "Unknown") ∧
    (r.tagline = none → c.tagline = "") ∧
    (r.score = none → c.similarity = 0) := by
  cases h1 : r.title with
  | none => rw [buildRecommendation, h1] at h; exact Except.noConfusion h
  | some t =>
    cases h2 : r.plot with
    | none => rw [buildRecommendation, h1, h2] at h; exact Except.noConfusion h
    | some p =>
      rw [buildRecommendation, h1, h2] at h
      have hc : c = Candidate.mk t p (r.released.getD "Unknown")
          (r.tagline.getD "") (r.score.getD 0) := (Except.ok.inj h).symm
      subst hc
      refine ⟨rfl, rfl, rfl, rfl, rfl, ?_, ?_, ?_⟩
      · intro hr; rw [hr]; rfl
      · intro hr; rw [hr]; rfl
      · intro hr; rw [hr]; rfl

/-- C9 (witness). -/
theorem buildRecommendation_defaults_witness :
    (⟨some "T", some "P", none, none, none⟩ : MovieRecord).title =
      some (Candidate.title ⟨"T", "P", "Unknown", "", 0⟩) ∧
    (⟨some "T", some "P", none, none, none⟩ : MovieRecord).plot =
      some (Candidate.plot ⟨"T", "P", "Unknown", "", 0⟩) ∧
    Candidate.released ⟨"T", "P", "Unknown", "", 0⟩ =
      (⟨some "T", some "P", none, none, none⟩ : MovieRecord).released.getD
        "Unknown" ∧
    Candidate.tagline ⟨"T", "P", "Unknown", "", 0⟩ =
      (⟨some "T", some "P", none, none, none⟩ : MovieRecord).tagline.getD "" ∧
    Candidate.similarity ⟨"T", "P", "Unknown", "", 0⟩ =
      (⟨some "T", some "P", none, none, none⟩ : MovieRecord).score.getD 0 ∧
    ((⟨some "T", some "P", none, none, none⟩ : MovieRecord).released = none →
      Candidate.released ⟨"T", "P", "Unknown", "", 0⟩ = "Unknown") ∧
    ((⟨some "T", some "P", none, none, none⟩ : MovieRecord).tagline = none →
      Candidate.tagline ⟨"T", "P", "Unknown", "", 0⟩ = "") ∧
    ((⟨some "T", some "P", none, none, none⟩ : MovieRecord).score = none →
      Candidate.similarity ⟨"T", "P", "Unknown", "", 0⟩ = 0) :=
  buildRecommendation_defaults ⟨some "T", some "P", none, none, none⟩
    ⟨"T", "P", "Unknown", "", 0⟩ rfl

/-- C4: for every retrieval call with `top_k ≥ 1`, the returned
candidate list has length at most `top_k` and is ordered by
non-increasing similarity score; omitting `top_k` is the same call with
`top_k = 5` (the Python default). -/
theorem get_movie_recommendations_topk_sorted (index : List ScoredRow)
    (emb : List ℚ) (k : Nat) (hk : 1 ≤ k) (cs : List Candidate)
    (h : get_movie_recommendations_by_vector index emb k = .ok cs) :
    cs.length ≤ k ∧
    List.Sorted (fun a b => b ≤ a) (cs.map Candidate.similarity) ∧
    get_movie_recommendations_by_vector index emb =
      get_movie_recommendations_by_vector index emb 5 := by
  have hrows := buildRecommendations_map_rowRecord
    (List.insertionSort (fun a b => b.2 ≤ a.2) (queryNodes index k))
  rw [get_movie_recommendations_by_vector, hrows] at h
  have hcs : cs = (List.insertionSort (fun a b => b.2 ≤ a.2)
      (queryNodes index k)).map candOfRow := (Except.ok.inj h).symm
  subst hcs
  refine ⟨?_, ?_, rfl⟩
  · rw [List.length_map, List.length_insertionSort, queryNodes]
    exact List.length_take_le _ _
  · have hs := List.sorted_insertionSort (fun a b : ScoredRow => b.2 ≤ a.2)
      (queryNodes index k)
    have hmap : ((List.insertionSort (fun a b : ScoredRow => b.2 ≤ a.2)
        (queryNodes index k)).map candOfRow).map Candidate.similarity =
        (List.insertionSort (fun a b : ScoredRow => b.2 ≤ a.2)
          (queryNodes index k)).map (fun x => x.2) := by
      rw [List.map_map]
      rfl
    rw [hmap]
    exact List.Pairwise.map (fun x : ScoredRow => x.2) (fun _ _ hab => hab) hs

/-- C4 (witness). -/
theorem get_movie_recommendations_topk_sorted_witness :
    c4out.length ≤ 1 ∧
    List.Sorted (fun a b => b ≤ a) (c4out.map Candidate.similarity) ∧
    get_movie_recommendations_by_vector c4index [] =
      get_movie_recommendations_by_vector c4index [] 5 :=
  get_movie_recommendations_topk_sorted c4index [] 1 (by decide) c4out rfl

/-- C6 (counterexample): relationship types are collected in a Python
set, so they are emitted in set-iteration order, not necessarily in the
order the backing store returned them.  With backing-store order
`ACTED_IN, DIRECTED` and an admissible (reversing) set-iteration order,
the code's output lists `DIRECTED` first, while the claimed
backing-store-order block (`ontologyBlockClaim`) lists `ACTED_IN`
first. -/
theorem get_ontology_rel_order_cx :
    get_ontology_from_neo4j [⟨["Movie"], "title"⟩] ["ACTED_IN", "DIRECTED"]
      List.reverse =
      "(Movie) has properties: title\n(:Node)-[:DIRECTED]->(:Node)\n(:Node)-[:ACTED_IN]->(:Node)" ∧
    ontologyBlockClaim [⟨["Movie"], "title"⟩] ["ACTED_IN", "DIRECTED"]
      List.reverse =
      "(Movie) has properties: title\n(:Node)-[:ACTED_IN]->(:Node)\n(:Node)-[:DIRECTED]->(:Node)" ∧
    get_ontology_from_neo4j [⟨["Movie"], "title"⟩] ["ACTED_IN", "DIRECTED"]
      List.reverse ≠
      ontologyBlockClaim [⟨["Movie"], "title"⟩] ["ACTED_IN", "DIRECTED"]
      List.reverse :=
  ⟨by decide, by decide, by decide⟩

/-- C6 (amended): the schema description is exactly one line per
distinct node type listing its properties, followed by exactly one line
per distinct relationship type in the endpoint-erased
`(:Node)-[:REL]->(:Node)` notation; node types appear in the
first-occurrence order the backing store returned them, while
relationship types appear in the (unspecified) iteration order of the
Python set that collects them. -/
theorem get_ontology_line_structure (records : List NodePropRecord)
    (relTypes : List String) (so : List String → List String) :
    get_ontology_from_neo4j records relTypes so =
      joinLines ((nodesDict records).map (nodeLine so) ++
        (so (dedupList relTypes)).map relLine) ∧
    (nodesDict records).map Prod.fst =
      dedupList (records.map (fun r => pyJoin ":" r.nodeLabels)) :=
  ⟨get_ontology_eq records relTypes so, nodesDict_keys records⟩

/-- C2: if the embedding succeeds and the vector retrieval returns zero
candidates, `process_query` answers the fixed no-relevant-results
message and its trace stops at the retrieval step — no ontology
introspection, no prompt composition, no LLM call is reached. -/
theorem process_query_empty_retrieval (o : Oracles) (input : String)
    (emb : List ℚ) (h1 : o.generate_embedding input = .ok emb)
    (h2 : o.vector_search emb 5 = .ok []) :
    process_query o input =
      ("Sorry, no relevant results found using vector search.",
       [Event.embed, Event.vectorSearch]) := by
  unfold process_query
  rw [h1]
  simp only [h2]
  rfl

/-- C2 (witness). -/
theorem process_query_empty_retrieval_witness :
    process_query c2Oracles "anything" =
      ("Sorry, no relevant results found using vector search.",
       [Event.embed, Event.vectorSearch]) :=
  process_query_empty_retrieval c2Oracles "anything" [] rfl rfl

/-- C1 (counterexample): the claim says every answer is a non-empty
string, but on the success path the answer is the summarizer's output
verbatim; when the LLM returns the empty string, `handle_user_input`
returns the empty string. -/
theorem process_query_empty_summary_cx :
    handle_user_input c1Oracles "recommend a movie" = "" := rfl

/-- C1 (amended): `process_query`/`handle_user_input` never raise (they
are total, every collaborator failure is caught and becomes an
`Error processing query: ...` answer, and the empty-retrieval path
yields a fixed message); the answer is non-empty provided the language
model never returns empty text — on the success path the answer is the
summarizer's output verbatim. -/
theorem process_query_answer_nonempty (o : Oracles) (input : String)
    (hllm : ∀ p r, o.generate_response p = .ok r → r ≠ "") :
    handle_user_input o input ≠ "" := by
  unfold handle_user_input process_query
  cases h1 : o.generate_embedding input with
  | error e => simp only [h1]; exact errAnswer_ne_empty e
  | ok emb =>
    simp only [h1]
    cases h2 : o.vector_search emb 5 with
    | error e => simp only [h2]; exact errAnswer_ne_empty e
    | ok vres =>
      simp only [h2]
      cases vres with
      | nil =>
        exact (by decide :
          (("Sorry, no relevant results found using vector search.",
            [Event.embed, Event.vectorSearch]) : String × List Event).1 ≠ "")
      | cons v vs =>
        cases h3 : o.get_ontology with
        | error e => simp only [h3]; exact errAnswer_ne_empty e
        | ok ontology =>
          simp only [h3]
          cases h4 : o.generate_response
              (cypher_generation_prompt input (vectorContext (v :: vs))
                ontology) with
          | error e => simp only [h4]; exact errAnswer_ne_empty e
          | ok raw =>
            simp only [h4]
            cases h5 : o.run_cypher (stripFences (strip raw)) with
            | error e => simp only [h5]; exact errAnswer_ne_empty e
            | ok records =>
              simp only [h5]
              cases h6 : o.generate_response
                  (summarize_results_prompt input
                    ⟨some (stripFences (strip raw)), records⟩ records.length
                    (pyListStr records)) with
              | error e => simp only [h6]; exact errAnswer_ne_empty e
              | ok summary => simp only [h6]; exact hllm _ _ h6

/-- C1 (witness). -/
theorem process_query_answer_nonempty_witness :
    handle_user_input c1wOracles "recommend a movie" ≠ "" :=
  process_query_answer_nonempty c1wOracles "recommend a movie"
    (fun _ r h => by
      have : r = "Here are some movies." := (Except.ok.inj h).symm
      subst this
      decide)

end MovieApp
